import Mathlib

/-!
Shallow embedding of the endcorp-hq/drift-sdk operational scripts.

Each script is a straight-line async `main` that loads configuration, builds
one or more Solana transactions through the Drift SDK, submits them, awaits
confirmation, and logs results.  We embed every script as a pure function
from an *environment* — the outcomes of its external (RPC / SDK / filesystem)
calls — to the ordered list of observable effects it performs together with
the final disposition of the `main` promise.  Thrown JavaScript errors are
modelled as `Except` failures of the corresponding call; `try`/`catch`/
`finally` structure is translated literally.

Public keys, signatures, blockhashes and instructions are opaque and
modelled as `Nat`; transactions keep the three fields the scripts set
(instruction list, fee payer, recent blockhash).  Informational
`console.log` lines that carry no decision-relevant state are elided from
the traces; warning, error, and success-report lines are kept, with
template-string interpolations elided from the message constants.
-/

namespace DriftScripts

/-- A thrown JavaScript error: its message plus the on-chain program log
lines attached to it (`error.logs`, empty when absent). -/
structure JsError where
  msg : String
  logs : List String
deriving DecidableEq, Repr

/-- A web3.js `Transaction` as the scripts populate it: added instructions,
`tx.feePayer`, and `tx.recentBlockhash`. -/
structure Tx where
  instrs : List Nat
  feePayer : Option Nat
  recentBlockhash : Option Nat
deriving DecidableEq, Repr

/-- One observable effect of a script run, in program order. -/
inductive Eff where
  | subscribeC
  | unsubscribeC
  | readAccount (addr : Nat)
  | fetchBlockhash (h : Nat)
  | buildTx (tx : Tx)
  | sendTx (tx : Tx)
  | submitViaClient (op : String)
  | confirmTx (sig : Nat)
  | logMsg (s : String)
  | logWarn (s : String)
  | logErr (s : String)
  | logChain (s : String)
deriving DecidableEq, Repr

/-- Disposition of the script's `main()` promise: resolved normally, or
rejected with an uncaught error. -/
inductive Outcome where
  | resolved
  | rejected (e : JsError)
deriving DecidableEq, Repr

/-- A complete run: the effect trace and the promise disposition. -/
abbrev Run := List Eff × Outcome

/-- Number of `unsubscribe` calls in a trace. -/
def countUnsub (t : List Eff) : Nat := t.count Eff.unsubscribeC

/-- Effects that submit a transaction to the network, either through
`connection.sendTransaction` or through an SDK client method that submits
internally (e.g. `adminClient.updateAdmin`). -/
def isSubmission : Eff → Bool
  | .sendTx _ => true
  | .submitViaClient _ => true
  | _ => false

/-- Effects that construct a `new Transaction()`. -/
def isBuild : Eff → Bool
  | .buildTx _ => true
  | _ => false

/-- Whether some effect of the trace submits a transaction. -/
def submits (t : List Eff) : Bool := t.any isSubmission

/-- Whether `pat` is a prefix of the character list `s`. -/
def charListPrefix : List Char → List Char → Bool
  | [], _ => true
  | _ :: _, [] => false
  | a :: as, b :: bs => (a == b) && charListPrefix as bs

/-- Whether `pat` occurs as a contiguous sublist of `s`. -/
def hasSubstring (pat : List Char) : List Char → Bool
  | [] => charListPrefix pat []
  | a :: rest => charListPrefix pat (a :: rest) || hasSubstring pat rest

/-- Whether `pat` occurs as a substring of `msg`. -/
def mentionsStr (msg pat : String) : Bool :=
  hasSubstring pat.toList msg.toList

/-- Shared script shape `try { body } catch (e) { console.error(pre, e) }
finally { await client.unsubscribe() }`: the catch swallows the error, so
the script's promise resolves on every path and the unsubscribe always
runs. `body` returns its trace and the error it threw, if any. -/
def tryCatchFinally (pre : String) (body : List Eff × Option JsError) : Run :=
  match body with
  | (t, none) => (t ++ [Eff.unsubscribeC], Outcome.resolved)
  | (t, some e) => (t ++ [Eff.logErr (pre ++ e.msg), Eff.unsubscribeC], Outcome.resolved)

/-! ## src/create-spot-market.ts -/

/-- Environment for `create-spot-market.ts`: results of its external calls.
`confirmR` is the result of `connection.confirmTransaction`; when it
resolves, the payload carries `confirmation.value.err` (an on-chain error,
or `none` for a clean confirmation). `blockhash0` is the hash returned by
the single `getLatestBlockhash` call. -/
structure CreateSpotMarketEnv where
  subscribeR : Except JsError Unit
  numberOfMarkets : Nat
  spotIxsR : Except JsError (List Nat)
  blockhash0 : Nat
  sendR : Except JsError Nat
  confirmR : Except JsError (Option String)

/-- Body of the outer `try` of `create-spot-market.ts` (lines 49-124):
subscribe, read the cached state, build the initialize-spot-market
instruction, assemble the transaction with fee payer = the loaded keypair
and the just-fetched blockhash, send, await confirmation, and report
success.  The inner catch logs `Transaction failed:` and rethrows.  Note
that the resolved confirmation's `value.err` field is bound but never
inspected (line 115-117 of the source). -/
def createSpotMarketSrcBody (pk : Nat) (env : CreateSpotMarketEnv) :
    List Eff × Option JsError :=
  match env.subscribeR with
  | .error e => ([Eff.subscribeC], some e)
  | .ok _ =>
    match env.spotIxsR with
    | .error e => ([Eff.subscribeC], some e)
    | .ok ixs =>
      let tx : Tx := ⟨ixs, some pk, some env.blockhash0⟩
      let t0 := [Eff.subscribeC, Eff.fetchBlockhash env.blockhash0,
                 Eff.buildTx tx, Eff.sendTx tx]
      match env.sendR with
      | .error e => (t0 ++ [Eff.logErr ("Transaction failed: " ++ e.msg)], some e)
      | .ok sig =>
        match env.confirmR with
        | .error e =>
          (t0 ++ [Eff.logMsg "Transaction sent", Eff.confirmTx sig,
                  Eff.logErr ("Transaction failed: " ++ e.msg)], some e)
        | .ok _confirmationErr =>
          (t0 ++ [Eff.logMsg "Transaction sent", Eff.confirmTx sig,
                  Eff.logMsg "Transaction confirmed!",
                  Eff.logMsg "USDC spot market initialized!"], none)

/-- Full `main` of `create-spot-market.ts`: outer try / catch (log
`Error:` and swallow) / finally (unsubscribe). -/
def createSpotMarketSrcRun (pk : Nat) (env : CreateSpotMarketEnv) : Run :=
  tryCatchFinally "Error: " (createSpotMarketSrcBody pk env)

/-! ## Configuration loading (Node environment, filesystem, parsers) -/

/-- The pieces of the Node runtime the config phases touch: `process.env`,
file contents (`none` = missing file), `JSON.parse` of a key file as a byte
array (`none` = malformed JSON), `Keypair.fromSecretKey` (`none` = invalid
bytes), `new PublicKey` on a string (`none` = not a valid key), and the
home directory used by `path.join(os.homedir(), ...)`. -/
structure NodeWorld where
  envVar : String → Option String
  fileContent : String → Option String
  jsonBytes : String → Option (List Nat)
  secretKeyPub : List Nat → Option Nat
  pubkeyOf : String → Option Nat
  homedir : String

/-- Models `path.join(os.homedir(), process.env.X!)` when the setting is
read through a non-null assertion: with the variable unset, `path.join`
receives `undefined` and throws a TypeError whose message names no
configuration setting (Node: `The "path" argument must be of type string`).
-/
def pathJoinHome (w : NodeWorld) (p : Option String) : Except JsError String :=
  match p with
  | none => .error ⟨"The path argument must be of type string. Received undefined", []⟩
  | some s => .ok (w.homedir ++ "/" ++ s)

/-- Models `fs.readFileSync`: a missing file raises ENOENT, whose message
does include the file path. -/
def readFileSyncM (w : NodeWorld) (p : String) : Except JsError String :=
  match w.fileContent p with
  | none => .error ⟨"ENOENT: no such file or directory, open " ++ p, []⟩
  | some c => .ok c

/-- Models `JSON.parse` applied to a key file: a malformed file raises a
SyntaxError whose message describes the offending token and position and
never contains the file path or any configuration-setting name. -/
def jsonParseSecret (w : NodeWorld) (s : String) : Except JsError (List Nat) :=
  match w.jsonBytes s with
  | none => .error ⟨"Unexpected token in JSON at position 0", []⟩
  | some bs => .ok bs

/-- Models `Keypair.fromSecretKey` over the parsed byte array. -/
def fromSecretKeyM (w : NodeWorld) (bs : List Nat) : Except JsError Nat :=
  match w.secretKeyPub bs with
  | none => .error ⟨"bad secret key size", []⟩
  | some pk => .ok pk

/-- Models `new PublicKey(process.env.X!)`: with the variable unset the
constructor receives `undefined` and throws `Invalid public key input`,
which names no configuration setting. -/
def newPublicKeyM (w : NodeWorld) (s : Option String) : Except JsError Nat :=
  match s with
  | none => .error ⟨"Invalid public key input", []⟩
  | some str =>
    match w.pubkeyOf str with
    | none => .error ⟨"Invalid public key input", []⟩
    | some pk => .ok pk

/-! ## src/initialize-program.ts -/

/-- Configuration `initialize-program.ts` assembles before any network
call: the signer loaded from the key file, the program id, and the USDC
mint address. -/
structure InitProgramConfig where
  signerPk : Nat
  programId : Nat
  usdcMint : Nat
deriving DecidableEq, Repr

/-- Config phase of `initialize-program.ts` (lines 18-33): read the key
file at `path.join(os.homedir(), process.env.ADMIN_PRIVATE_KEY_PATH!)`,
`JSON.parse` it, build the keypair, then construct the PROGRAM_ID and
USDC_MINT public keys.  All of it happens before any network I/O. -/
def initializeProgramConfig (w : NodeWorld) : Except JsError InitProgramConfig := do
  let p ← pathJoinHome w (w.envVar "ADMIN_PRIVATE_KEY_PATH")
  let content ← readFileSyncM w p
  let bytes ← jsonParseSecret w content
  let pk ← fromSecretKeyM w bytes
  let pid ← newPublicKeyM w (w.envVar "PROGRAM_ID")
  let mint ← newPublicKeyM w (w.envVar "USDC_MINT")
  .ok ⟨pk, pid, mint⟩

/-- Stands in for the raw `initialize` instruction the script builds from
the hard-coded Anchor discriminator (its first byte used as the opaque
code). -/
def initializeIxCode : Nat := 175

/-- Environment for the network phase of `initialize-program.ts`. -/
structure InitProgramEnv where
  world : NodeWorld
  blockhash0 : Nat
  sendR : Except JsError Nat
  confirmR : Except JsError (Option String)

/-- `main` of `initialize-program.ts`: config phase, then build the
transaction (fee payer = signer, blockhash = the one just fetched), send
inside a try whose catch logs `Transaction failed:` plus the attached
program log lines and RETHROWS — `main` has no outer catch, so any failure
rejects the `main` promise.  The resolved confirmation's `value.err` is
never inspected. -/
def initializeProgramRun (env : InitProgramEnv) : Run :=
  match initializeProgramConfig env.world with
  | .error e => ([], Outcome.rejected e)
  | .ok cfg =>
    let tx : Tx := ⟨[initializeIxCode], some cfg.signerPk, some env.blockhash0⟩
    let t0 := [Eff.fetchBlockhash env.blockhash0, Eff.buildTx tx, Eff.sendTx tx]
    let logLines : JsError → List Eff := fun e =>
      if e.logs.isEmpty then [] else Eff.logErr "Transaction logs:" :: e.logs.map Eff.logChain
    match env.sendR with
    | .error e =>
      (t0 ++ [Eff.logErr ("Transaction failed: " ++ e.msg)] ++ logLines e,
       Outcome.rejected e)
    | .ok sig =>
      match env.confirmR with
      | .error e =>
        (t0 ++ [Eff.logMsg "Transaction sent", Eff.confirmTx sig,
                Eff.logErr ("Transaction failed: " ++ e.msg)] ++ logLines e,
         Outcome.rejected e)
      | .ok _confirmationErr =>
        (t0 ++ [Eff.logMsg "Transaction sent", Eff.confirmTx sig,
                Eff.logMsg "Transaction confirmed!",
                Eff.logMsg "Program initialized successfully!"],
         Outcome.resolved)

/-- The script's last line is `main().catch(console.error)`: a rejected
`main` promise is logged by the handler and the handler's own promise
resolves, so the Node process always exits with status 0.  The returned
trace appends the handler's error log on the rejected path. -/
def initializeProgramProcess (env : InitProgramEnv) : List Eff × Nat :=
  match initializeProgramRun env with
  | (t, Outcome.resolved) => (t, 0)
  | (t, Outcome.rejected e) => (t ++ [Eff.logErr e.msg], 0)

/-! ## Perp-market creation script (unnamed part_001) -/

/-- Environment for the perp-market creation script.  The script submits
two transactions (initialize-perp-market, then initialize-prediction-
market), each with its own blockhash fetch, send, and confirmation. -/
structure CreatePerpEnv where
  statePk : Nat
  accountInfoR : Except JsError (Option Unit)
  subscribeR : Except JsError Unit
  numberOfMarkets : Nat
  perpIxsR : Except JsError (List Nat)
  blockhash0 : Nat
  send1R : Except JsError Nat
  confirm1R : Except JsError (Option String)
  predIxR : Except JsError (List Nat)
  blockhash1 : Nat
  send2R : Except JsError Nat
  confirm2R : Except JsError (Option String)

/-- `main` of the perp-market creation script.  Faithful to a structural
quirk of the source: the state-account existence check (lines 60-70) AND
`adminClient.subscribe()` (line 73) happen BEFORE the `try` block, so an
error thrown by either rejects `main` without ever reaching the `finally`
that unsubscribes.  Only the code from `getStateAccount` on is inside the
try / catch (log `Error:`) / finally (unsubscribe). -/
def createPerpMarketRun (pk : Nat) (env : CreatePerpEnv) : Run :=
  match env.accountInfoR with
  | .error e => ([Eff.readAccount env.statePk], Outcome.rejected e)
  | .ok none =>
    ([Eff.readAccount env.statePk],
     Outcome.rejected ⟨"State account does not exist", []⟩)
  | .ok (some _) =>
    match env.subscribeR with
    | .error e =>
      ([Eff.readAccount env.statePk, Eff.subscribeC], Outcome.rejected e)
    | .ok _ =>
      let body : List Eff × Option JsError :=
        match env.perpIxsR with
        | .error e => ([], some e)
        | .ok ixs =>
          let tx1 : Tx := ⟨ixs, some pk, some env.blockhash0⟩
          let t1 := [Eff.fetchBlockhash env.blockhash0, Eff.buildTx tx1, Eff.sendTx tx1]
          match env.send1R with
          | .error e => (t1, some e)
          | .ok sig1 =>
            match env.confirm1R with
            | .error e => (t1 ++ [Eff.confirmTx sig1], some e)
            | .ok _ =>
              let t2 := t1 ++ [Eff.confirmTx sig1, Eff.logMsg "Transaction confirmed!"]
              match env.predIxR with
              | .error e => (t2, some e)
              | .ok pixs =>
                let tx2 : Tx := ⟨pixs, some pk, some env.blockhash1⟩
                let t3 := t2 ++ [Eff.fetchBlockhash env.blockhash1,
                                 Eff.buildTx tx2, Eff.sendTx tx2]
                match env.send2R with
                | .error e => (t3, some e)
                | .ok sig2 =>
                  match env.confirm2R with
                  | .error e => (t3 ++ [Eff.confirmTx sig2], some e)
                  | .ok _ =>
                    (t3 ++ [Eff.confirmTx sig2,
                            Eff.logMsg "Transaction confirmed!",
                            Eff.logMsg "Converted to prediction market"], none)
      match tryCatchFinally "Error: " body with
      | (t, o) => ([Eff.readAccount env.statePk, Eff.subscribeC] ++ t, o)

/-! ## Admin-update script (unnamed part_000, first file) -/

/-- Configuration the admin-update script assembles: the loaded current
admin keypair, the Drift program id, and the target new admin key. -/
structure UpdateAdminConfig where
  signerPk : Nat
  programId : Nat
  newAdmin : Nat
deriving DecidableEq, Repr

/-- `loadKeypairFromFile` from the admin-update script: checks existence
(`Keypair file not found at <path>` — the message carries the path; the
`path.resolve(__dirname, '..')` prefix is elided here), reads the file,
`JSON.parse`s it, and builds the keypair. -/
def loadKeypairFromFile (w : NodeWorld) (filePath : String) : Except JsError Nat :=
  match w.fileContent filePath with
  | none => .error ⟨"Keypair file not found at " ++ filePath, []⟩
  | some content => do
    let bytes ← jsonParseSecret w content
    fromSecretKeyM w bytes

/-- Config phase of the admin-update script (lines 41-77): each required
setting is checked explicitly and missing ones raise errors that name the
setting.  The RPC_URL default and `Connection` construction are local and
carry no claim-relevant state.  All of this precedes the `try` block. -/
def updateAdminConfig (w : NodeWorld) : Except JsError UpdateAdminConfig :=
  match w.envVar "ADMIN_PRIVATE_KEY_PATH" with
  | none =>
    .error ⟨"ADMIN_PRIVATE_KEY_PATH environment variable not set. This must be the keypair of the CURRENT admin.", []⟩
  | some p => do
    let pk ← loadKeypairFromFile w p
    match w.envVar "DRIFT_PROGRAM_ID" with
    | none => .error ⟨"DRIFT_PROGRAM_ID environment variable not set.", []⟩
    | some pidStr => do
      let pid ← newPublicKeyM w (some pidStr)
      match w.envVar "NEW_ADMIN_PUBLIC_KEY" with
      | none => .error ⟨"NEW_ADMIN_PUBLIC_KEY environment variable not set.", []⟩
      | some naStr => do
        let na ← newPublicKeyM w (some naStr)
        .ok ⟨pk, pid, na⟩

/-- The mismatch warning of the admin-update script (interpolated keys
elided). -/
def adminMismatchWarning : String :=
  "WARNING: The public key of the loaded ADMIN_PRIVATE_KEY_PATH does not match the current program admin. This transaction will likely fail."

/-- The verification-failure report of the admin-update script. -/
def verifyFailedMsg : String := "Failed to verify admin update."

/-- Prefix of the admin-update script's catch-path error report. -/
def updateAdminCatchPrefix : String := "Error updating admin: "

/-- Environment for the workflow phase of the admin-update script:
subscribe, fetch the state account's admin field, submit via
`adminClient.updateAdmin`, fetch a fresh blockhash for the confirmation
strategy, confirm, re-fetch, and compare. -/
structure UpdateAdminEnv where
  statePk : Nat
  subscribeR : Except JsError Unit
  fetchAdminR : Except JsError Nat
  updateAdminR : Except JsError Nat
  blockhash0 : Nat
  confirmR : Except JsError Unit
  fetchAccountsR : Except JsError Unit
  refetchAdminR : Except JsError Nat

/-- Workflow phase of the admin-update script (lines 100-172): the whole
thing sits in try / catch / finally.  An on-chain admin different from the
loaded signer only logs a warning (line 117-123) and the submission is
still attempted.  After confirmation the state account is re-fetched and
the script reports `Successfully updated admin` exactly when the re-fetched
admin equals the target, else it error-logs the distinct verification-
failure message without throwing.  The catch logs `Error updating admin:`
plus any `error.logs` lines; the finally always unsubscribes. -/
def updateAdminBody (cfg : UpdateAdminConfig) (env : UpdateAdminEnv) :
    List Eff × Option JsError :=
  match env.subscribeR with
    | .error e => ([Eff.subscribeC], some e)
    | .ok _ =>
      let t0 := [Eff.subscribeC, Eff.readAccount env.statePk]
      match env.fetchAdminR with
      | .error e => (t0, some e)
      | .ok admin =>
        let warn := if admin = cfg.signerPk then [] else [Eff.logWarn adminMismatchWarning]
        let t1 := t0 ++ warn ++ [Eff.submitViaClient "updateAdmin"]
        match env.updateAdminR with
        | .error e => (t1, some e)
        | .ok sig =>
          let t2 := t1 ++ [Eff.logMsg "Update admin transaction sent",
                           Eff.fetchBlockhash env.blockhash0, Eff.confirmTx sig]
          match env.confirmR with
          | .error e => (t2, some e)
          | .ok _ =>
            let t3 := t2 ++ [Eff.logMsg "Transaction confirmed."]
            match env.fetchAccountsR with
            | .error e => (t3, some e)
            | .ok _ =>
              let t4 := t3 ++ [Eff.readAccount env.statePk]
              match env.refetchAdminR with
              | .error e => (t4, some e)
              | .ok onChainAdmin =>
                if onChainAdmin = cfg.newAdmin then
                  (t4 ++ [Eff.logMsg "Successfully updated admin"], none)
                else
                  (t4 ++ [Eff.logErr verifyFailedMsg], none)

/-- The try / catch / finally wrapper of the admin-update script's
workflow: the catch logs `Error updating admin:` plus any `error.logs`
lines and swallows the error; the finally always unsubscribes. -/
def updateAdminWorkflow (cfg : UpdateAdminConfig) (env : UpdateAdminEnv) : Run :=
  match updateAdminBody cfg env with
  | (t, none) => (t ++ [Eff.unsubscribeC], Outcome.resolved)
  | (t, some e) =>
    (t ++ [Eff.logErr (updateAdminCatchPrefix ++ e.msg)]
       ++ (if e.logs.isEmpty then []
           else Eff.logErr "Transaction Logs:" :: e.logs.map Eff.logChain)
       ++ [Eff.unsubscribeC], Outcome.resolved)

/-- `main` of the admin-update script: config phase (whose errors are
thrown before the try and reject `main`), then the workflow whose internal
catch swallows every error. -/
def updateAdminRun (w : NodeWorld) (env : UpdateAdminEnv) : Run :=
  match updateAdminConfig w with
  | .error e => ([], Outcome.rejected e)
  | .ok cfg => updateAdminWorkflow cfg env

/-- The admin-update script ends with
`main().catch(err => (console.error(...), process.exit(1)))`: a rejected
`main` logs `Unhandled error in main:` and exits 1; a resolved `main`
exits 0. -/
def updateAdminProcess (w : NodeWorld) (env : UpdateAdminEnv) : List Eff × Nat :=
  match updateAdminRun w env with
  | (t, Outcome.resolved) => (t, 0)
  | (t, Outcome.rejected e) =>
    (t ++ [Eff.logErr ("Unhandled error in main: " ++ e.msg)], 1)

/-! ## User-creation script (unnamed part_000, second file) -/

/-- Environment for the user-creation script. -/
structure CreateUserEnv where
  subscribeR : Except JsError Unit
  userIxsR : Except JsError (List Nat)
  blockhash0 : Nat
  sendR : Except JsError Nat
  confirmR : Except JsError (Option String)

/-- `main` of the user-creation script: subscribe and everything else are
inside the try; the catch logs `Error initializing user:` and swallows;
the finally unsubscribes.  The transaction is sent with
`skipPreflight: true` and the resolved confirmation is not inspected. -/
def createUserBody (pk : Nat) (env : CreateUserEnv) : List Eff × Option JsError :=
  match env.subscribeR with
  | .error e => ([Eff.subscribeC], some e)
  | .ok _ =>
    match env.userIxsR with
    | .error e => ([Eff.subscribeC], some e)
    | .ok ixs =>
      let tx : Tx := ⟨ixs, some pk, some env.blockhash0⟩
      let t0 := [Eff.subscribeC, Eff.fetchBlockhash env.blockhash0,
                 Eff.buildTx tx, Eff.sendTx tx]
      match env.sendR with
      | .error e => (t0, some e)
      | .ok sig =>
        match env.confirmR with
        | .error e => (t0 ++ [Eff.confirmTx sig], some e)
        | .ok _ =>
          (t0 ++ [Eff.confirmTx sig, Eff.logMsg "Transaction confirmed!",
                  Eff.logMsg "User created!"], none)

/-- Full `main` of the user-creation script. -/
def createUserRun (pk : Nat) (env : CreateUserEnv) : Run :=
  tryCatchFinally "Error initializing user: " (createUserBody pk env)

/-! ## src/place-order.ts -/

/-- Environment for `place-order.ts`.  `userPk` is the result of
`getUserAccountPublicKeySync`, a deterministic PDA derivation over the
program id and the loaded wallet key (it performs no I/O and cannot fail
on a loaded keypair, so it is modelled as a value).  The perp-market
account fetch may resolve to `none` (account missing); the spot-market
getter is a synchronous cache read. -/
structure PlaceOrderEnv where
  userPk : Nat
  subscribeR : Except JsError Unit
  stateR : Except JsError Unit
  perpAccountR : Except JsError (Option Unit)
  spotAccount : Option Unit
  orderIxR : Except JsError (List Nat)
  blockhash0 : Nat
  sendR : Except JsError Nat
  confirmR : Except JsError (Option String)

/-- `placePredictionMarketOrder` of `place-order.ts`: the PDA derivation
precedes the try, everything fallible is inside it; missing perp/spot
market accounts throw and are caught; the catch logs
`Error placing order:` and swallows; the finally unsubscribes.  The
resolved confirmation is not inspected. -/
def placeOrderBody (pk : Nat) (env : PlaceOrderEnv) : List Eff × Option JsError :=
  match env.subscribeR with
  | .error e => ([Eff.subscribeC], some e)
  | .ok _ =>
    match env.stateR with
    | .error e => ([Eff.subscribeC], some e)
    | .ok _ =>
      match env.perpAccountR with
      | .error e => ([Eff.subscribeC], some e)
      | .ok none => ([Eff.subscribeC], some ⟨"Perp market account not found", []⟩)
      | .ok (some _) =>
        match env.spotAccount with
        | none => ([Eff.subscribeC], some ⟨"Spot market account not found", []⟩)
        | some _ =>
          match env.orderIxR with
          | .error e => ([Eff.subscribeC], some e)
          | .ok ixs =>
            let tx : Tx := ⟨ixs, some pk, some env.blockhash0⟩
            let t0 := [Eff.subscribeC, Eff.fetchBlockhash env.blockhash0,
                       Eff.buildTx tx, Eff.sendTx tx]
            match env.sendR with
            | .error e => (t0, some e)
            | .ok sig =>
              match env.confirmR with
              | .error e => (t0 ++ [Eff.confirmTx sig], some e)
              | .ok _ =>
                (t0 ++ [Eff.confirmTx sig, Eff.logMsg "Transaction confirmed!",
                        Eff.logMsg "Order placed!"], none)

/-- Full `placePredictionMarketOrder` of `place-order.ts`. -/
def placeOrderRun (pk : Nat) (env : PlaceOrderEnv) : Run :=
  tryCatchFinally "Error placing order: " (placeOrderBody pk env)

/-! ## src/check-state.ts -/

/-- Environment for `check-state.ts`: results of its reads.  The second
`getAccountInfo` targets the spot-market address; `spotAccountR` is the
cache read inside the innermost try, whose failure is caught and merely
logged. -/
structure CheckStateEnv where
  statePk : Nat
  spotMarketPk : Nat
  subscribeR : Except JsError Unit
  stateAccountR : Except JsError Unit
  accountInfo1R : Except JsError (Option Unit)
  accountInfo2R : Except JsError (Option Unit)
  spotAccountR : Except JsError (Option Unit)

/-- `main` of `check-state.ts` (lines 13-109): subscribe, read the state
account and its raw account info, derive the spot-market address, read its
account info, and (when present) read the cached spot-market account
inside an inner try whose catch only logs.  The script never constructs a
`Transaction` and never submits anything.  Outer catch logs `Error:`;
finally unsubscribes. -/
def checkStateBody (env : CheckStateEnv) : List Eff × Option JsError :=
  match env.subscribeR with
  | .error e => ([Eff.subscribeC], some e)
  | .ok _ =>
    match env.stateAccountR with
    | .error e => ([Eff.subscribeC], some e)
    | .ok _ =>
      let t0 := [Eff.subscribeC, Eff.readAccount env.statePk]
      match env.accountInfo1R with
      | .error e => (t0, some e)
      | .ok _ =>
        let t1 := t0 ++ [Eff.readAccount env.spotMarketPk]
        match env.accountInfo2R with
        | .error e => (t1, some e)
        | .ok none => (t1, none)
        | .ok (some _) =>
          match env.spotAccountR with
          | .error e =>
            (t1 ++ [Eff.logMsg ("Could not load spot market account data: " ++ e.msg)], none)
          | .ok _ => (t1 ++ [Eff.logMsg "Spot Market Configuration"], none)

/-- Full `main` of `check-state.ts`. -/
def checkStateRun (env : CheckStateEnv) : Run :=
  tryCatchFinally "Error: " (checkStateBody env)

/-! ## Validated spot-market creation script (unnamed part_002) -/

/-- `SPOT_MARKET_WEIGHT_PRECISION` from the Drift SDK constants:
`new BN(10 ** 4)`; the script compares weights against its `.toNumber()`.
-/
def SPOT_MARKET_WEIGHT_PRECISION : Nat := 10000

/-- The state-account fields the validated spot-market script inspects. -/
structure StateFields where
  admin : Nat
  signerField : Nat
  numberOfMarkets : Nat
  numberOfSpotMarkets : Nat
deriving DecidableEq, Repr

/-- The margin-weight validation chain of the validated spot-market script
(lines 165-180), in source order: the first weight strictly above
`SPOT_MARKET_WEIGHT_PRECISION.toNumber()` determines the thrown message,
which names that weight. -/
def validateMarginWeights (iaw maw ilw mlw : ℚ) : Option String :=
  if iaw > (SPOT_MARKET_WEIGHT_PRECISION : ℚ) then some "Initial asset weight too high"
  else if maw > (SPOT_MARKET_WEIGHT_PRECISION : ℚ) then some "Maintenance asset weight too high"
  else if ilw > (SPOT_MARKET_WEIGHT_PRECISION : ℚ) then some "Initial liability weight too high"
  else if mlw > (SPOT_MARKET_WEIGHT_PRECISION : ℚ) then some "Maintenance liability weight too high"
  else none

/-- Environment for the validated spot-market creation script.
`stateOpt` is `adminClient.getStateAccount()` (`none` models a falsy
state, guarded at line 68); `driftSignerPda` is the deterministic
`findProgramAddressSync` result; `mintDecimalsR` is the parsed-decimals
outcome of `getParsedAccountInfo` (`none` = missing/unparsable account).
-/
structure CSMValidatedEnv where
  subscribeR : Except JsError Unit
  stateOpt : Option StateFields
  driftSignerPda : Nat
  usdcMint : Nat
  mintDecimalsR : Except JsError (Option Nat)
  spotIxsR : Except JsError (List Nat)
  blockhash0 : Nat
  sendR : Except JsError Nat
  confirmR : Except JsError (Option String)

/-- Body of the validated spot-market creation script (lines 57-307),
parameterized — like the claim it settles — over the proposed weight
values the script reads at lines 154-157 (hard-coded to `1.0` in the
checked-in source).  The validation chain runs in source order:
state-account presence, drift-signer PDA match, zero market counts,
admin match (a HARD throw, not a warning), borrow-rate sanity checks on
the hard-coded constants, the margin-weight checks, then the first
network-touching validation (`getParsedAccountInfo` on the mint) and the
decimals check.  The oracle / token-program / market-status checks on
hard-coded constants (lines 202-251) cannot fire and are written out as
the corresponding conditionals on those constants.  Only after all checks
pass is the instruction built and the transaction assembled and sent; the
inner catch logs `Transaction failed:` and rethrows; the resolved
confirmation's `value.err` is never inspected. -/
def createSpotMarketValidatedBody (pk : Nat) (iaw maw ilw mlw : ℚ)
    (env : CSMValidatedEnv) : List Eff × Option JsError :=
  match env.subscribeR with
  | .error e => ([Eff.subscribeC], some e)
  | .ok _ =>
    match env.stateOpt with
    | none => ([Eff.subscribeC], some ⟨"State account not found", []⟩)
    | some st =>
      if env.driftSignerPda ≠ st.signerField then
        ([Eff.subscribeC], some ⟨"Drift signer mismatch", []⟩)
      else if st.numberOfMarkets ≠ 0 then
        ([Eff.subscribeC], some ⟨"Number of markets should be 0", []⟩)
      else if st.numberOfSpotMarkets ≠ 0 then
        ([Eff.subscribeC], some ⟨"Number of spot markets should be 0", []⟩)
      else if pk ≠ st.admin then
        ([Eff.subscribeC], some ⟨"Current wallet is not the admin", []⟩)
      else if (0.1 : ℚ) > (0.2 : ℚ) then
        ([Eff.subscribeC], some ⟨"Optimal rate cannot be greater than max rate", []⟩)
      else if (0.8 : ℚ) ≤ 0 then
        ([Eff.subscribeC], some ⟨"Optimal utilization must be greater than zero", []⟩)
      else
        match validateMarginWeights iaw maw ilw mlw with
        | some m => ([Eff.subscribeC], some ⟨m, []⟩)
        | none =>
          let t0 := [Eff.subscribeC, Eff.readAccount env.usdcMint]
          match env.mintDecimalsR with
          | .error e => (t0, some e)
          | .ok none => (t0, some ⟨"Could not fetch USDC mint info", []⟩)
          | .ok (some decimals) =>
            if decimals ≠ 6 then
              (t0, some ⟨"USDC mint must have 6 decimals", []⟩)
            else
              match env.spotIxsR with
              | .error e => (t0, some e)
              | .ok ixs =>
                let tx : Tx := ⟨ixs, some pk, some env.blockhash0⟩
                let t1 := t0 ++ [Eff.fetchBlockhash env.blockhash0,
                                 Eff.buildTx tx, Eff.sendTx tx]
                match env.sendR with
                | .error e =>
                  (t1 ++ [Eff.logErr ("Transaction failed: " ++ e.msg)], some e)
                | .ok sig =>
                  match env.confirmR with
                  | .error e =>
                    (t1 ++ [Eff.logMsg "Transaction sent", Eff.confirmTx sig,
                            Eff.logErr ("Transaction failed: " ++ e.msg)], some e)
                  | .ok _confirmationErr =>
                    (t1 ++ [Eff.logMsg "Transaction sent", Eff.confirmTx sig,
                            Eff.logMsg "Transaction confirmed!",
                            Eff.logMsg "USDC spot market initialized!"], none)

/-- `main` of the validated spot-market creation script: everything above
inside try / catch (log `Error:` and swallow) / finally (unsubscribe). -/
def createSpotMarketValidatedRun (pk : Nat) (iaw maw ilw mlw : ℚ)
    (env : CSMValidatedEnv) : Run :=
  tryCatchFinally "Error: " (createSpotMarketValidatedBody pk iaw maw ilw mlw env)

/-! ## Devnet mint script (concatenated after check-state.ts) -/

/-- Opaque codes for the mint script's four instructions:
`SystemProgram.createAccount`, `createInitializeMintInstruction`,
`createAssociatedTokenAccountInstruction`, `createMintToInstruction`. -/
def createMintAccountIxCode : Nat := 1

/-- Opaque code for `createInitializeMintInstruction`. -/
def initMintIxCode : Nat := 2

/-- Opaque code for `createAssociatedTokenAccountInstruction`. -/
def createAtaIxCode : Nat := 3

/-- Opaque code for `createMintToInstruction`. -/
def mintToIxCode : Nat := 4

/-- Keypair load of the mint script and of `place-order.ts`:
`JSON.parse(fs.readFileSync(path.join(__dirname, "../keypair.json")))`
followed by `Keypair.fromSecretKey` (the `__dirname` prefix is elided
from the modelled path). -/
def keypairJsonLoad (w : NodeWorld) : Except JsError Nat := do
  let c ← readFileSyncM w "keypair.json"
  let b ← jsonParseSecret w c
  fromSecretKeyM w b

/-- Environment for the mint script: the rent-exemption fetch and the two
`sendAndConfirmTransaction` calls (each models its combined
submit-and-confirm as one fallible step). -/
structure MockMintEnv where
  world : NodeWorld
  rentR : Except JsError Nat
  send1R : Except JsError Nat
  send2R : Except JsError Nat

/-- `mockUSDCMint` (the file concatenated after `check-state.ts`, lines
116-204): loads the keypair inside the async function, fetches the
rent-exempt minimum, builds and submits two transactions via
`sendAndConfirmTransaction` (which attaches fee payer and blockhash
internally, hence `none` in the built transactions), and logs progress.
There is no try/catch anywhere in the function, so the first failure
rejects the promise. -/
def mockUSDCMintRun (env : MockMintEnv) : Run :=
  match keypairJsonLoad env.world with
  | .error e => ([], Outcome.rejected e)
  | .ok _pk =>
    match env.rentR with
    | .error e => ([], Outcome.rejected e)
    | .ok _rent =>
      let tx1 : Tx := ⟨[createMintAccountIxCode, initMintIxCode], none, none⟩
      let t1 := [Eff.buildTx tx1, Eff.sendTx tx1]
      match env.send1R with
      | .error e => (t1, Outcome.rejected e)
      | .ok _sig1 =>
        let tx2 : Tx := ⟨[createAtaIxCode, mintToIxCode], none, none⟩
        let t2 := t1 ++ [Eff.logMsg "Mint created", Eff.buildTx tx2, Eff.sendTx tx2]
        match env.send2R with
        | .error e => (t2, Outcome.rejected e)
        | .ok _sig2 =>
          (t2 ++ [Eff.logMsg "Token account created and tokens minted successfully!"],
           Outcome.resolved)

/-! ## Process-level handler styles

Three styles occur in the repository: `main().catch(err =>
(console.error(...), process.exit(1)))` (admin-update only, modelled by
`updateAdminProcess`), `main().catch(console.error)` (initialize-program,
both spot-market creation scripts, perp-market creation, user creation,
state inspection), and a bare invocation with no rejection handler at all
(`placePredictionMarketOrder();` at place-order.ts line 127 and
`mockUSDCMint();` at the mint script's last line). -/

/-- The final `main().catch(console.error)`: a rejected main promise is
logged by the handler, whose own promise resolves, so Node exits 0
whether main resolved or rejected. -/
def catchConsoleErrorProcess (r : Run) : List Eff × Nat :=
  match r with
  | (t, Outcome.resolved) => (t, 0)
  | (t, Outcome.rejected e) => (t ++ [Eff.logErr e.msg], 0)

/-- A bare invocation with no rejection handler: a rejected promise is an
unhandled rejection, which current Node reports and then terminates the
process with a non-zero status (exit code 1). -/
def noHandlerProcess (r : Run) : List Eff × Nat :=
  match r with
  | (t, Outcome.resolved) => (t, 0)
  | (t, Outcome.rejected e) => (t ++ [Eff.logErr e.msg], 1)

/-- Process-level `create-spot-market.ts` (`main().catch(console.error)`).
-/
def createSpotMarketSrcProcess (pk : Nat) (env : CreateSpotMarketEnv) : List Eff × Nat :=
  catchConsoleErrorProcess (createSpotMarketSrcRun pk env)

/-- Process-level validated spot-market creation script
(`main().catch(console.error)`). -/
def createSpotMarketValidatedProcess (pk : Nat) (iaw maw ilw mlw : ℚ)
    (env : CSMValidatedEnv) : List Eff × Nat :=
  catchConsoleErrorProcess (createSpotMarketValidatedRun pk iaw maw ilw mlw env)

/-- Process-level perp-market creation script
(`main().catch(console.error)`). -/
def createPerpMarketProcess (pk : Nat) (env : CreatePerpEnv) : List Eff × Nat :=
  catchConsoleErrorProcess (createPerpMarketRun pk env)

/-- Process-level user-creation script (`main().catch(console.error)`). -/
def createUserProcess (pk : Nat) (env : CreateUserEnv) : List Eff × Nat :=
  catchConsoleErrorProcess (createUserRun pk env)

/-- Process-level `check-state.ts` (`main().catch(console.error)`). -/
def checkStateProcess (env : CheckStateEnv) : List Eff × Nat :=
  catchConsoleErrorProcess (checkStateRun env)

/-- Process-level `place-order.ts`: the keypair load sits at module scope
(lines 8-12), so its failure is an uncaught synchronous exception that
Node reports and terminates non-zero; otherwise the function is invoked
bare, with no rejection handler. -/
def placeOrderProcess (w : NodeWorld) (env : PlaceOrderEnv) : List Eff × Nat :=
  match keypairJsonLoad w with
  | .error e => ([Eff.logErr e.msg], 1)
  | .ok pk => noHandlerProcess (placeOrderRun pk env)

/-- Process-level mint script: invoked bare, with no rejection handler. -/
def mockUSDCMintProcess (env : MockMintEnv) : List Eff × Nat :=
  noHandlerProcess (mockUSDCMintRun env)

/-! ## Shared helper lemmas -/

/-- The try/catch/finally wrapper swallows the body's error, so its run
always resolves. -/
theorem tryCatchFinally_resolved (pre : String) (b : List Eff × Option JsError) :
    (tryCatchFinally pre b).2 = Outcome.resolved := by
  rcases b with ⟨t, _ | e⟩ <;> rfl

/-- Under `main().catch(console.error)` the process exits 0 on every run.
-/
theorem catchConsoleErrorProcess_exit (r : Run) :
    (catchConsoleErrorProcess r).2 = 0 := by
  rcases r with ⟨t, _ | e⟩ <;> rfl

/-- A handler-less invocation exits 0 exactly on resolved runs. -/
theorem noHandlerProcess_exit_of_resolved (r : Run) (h : r.2 = Outcome.resolved) :
    (noHandlerProcess r).2 = 0 := by
  rcases r with ⟨t, _ | e⟩
  · rfl
  · simp at h

/-- A try/catch/finally-shaped script whose body never unsubscribes
unsubscribes exactly once, on every path. -/
theorem countUnsub_tryCatchFinally (pre : String) (b : List Eff × Option JsError)
    (hb : Eff.unsubscribeC ∉ b.1) : countUnsub (tryCatchFinally pre b).1 = 1 := by
  obtain ⟨t, e2⟩ := b
  rcases e2 with _ | e <;>
    simp_all [tryCatchFinally, countUnsub, List.count_append, List.count_eq_zero]

/-- The body of `create-spot-market.ts` performs no unsubscribe. -/
theorem createSpotMarketSrcBody_no_unsub (pk : Nat) (env : CreateSpotMarketEnv) :
    Eff.unsubscribeC ∉ (createSpotMarketSrcBody pk env).1 := by
  unfold createSpotMarketSrcBody
  repeat' split
  all_goals simp

/-- The body of the validated spot-market script performs no unsubscribe. -/
theorem createSpotMarketValidatedBody_no_unsub (pk : Nat) (iaw maw ilw mlw : ℚ)
    (env : CSMValidatedEnv) :
    Eff.unsubscribeC ∉ (createSpotMarketValidatedBody pk iaw maw ilw mlw env).1 := by
  unfold createSpotMarketValidatedBody
  repeat' split
  all_goals simp

/-- The body of the user-creation script performs no unsubscribe. -/
theorem createUserBody_no_unsub (pk : Nat) (env : CreateUserEnv) :
    Eff.unsubscribeC ∉ (createUserBody pk env).1 := by
  unfold createUserBody
  repeat' split
  all_goals simp

/-- The body of `place-order.ts` performs no unsubscribe. -/
theorem placeOrderBody_no_unsub (pk : Nat) (env : PlaceOrderEnv) :
    Eff.unsubscribeC ∉ (placeOrderBody pk env).1 := by
  unfold placeOrderBody
  repeat' split
  all_goals simp

/-- The body of `check-state.ts` performs no unsubscribe. -/
theorem checkStateBody_no_unsub (env : CheckStateEnv) :
    Eff.unsubscribeC ∉ (checkStateBody env).1 := by
  unfold checkStateBody
  repeat' split
  all_goals simp

/-- The body of the admin-update workflow performs no unsubscribe. -/
theorem updateAdminBody_no_unsub (cfg : UpdateAdminConfig) (env : UpdateAdminEnv) :
    Eff.unsubscribeC ∉ (updateAdminBody cfg env).1 := by
  unfold updateAdminBody
  repeat' split
  all_goals simp

/-- The admin-update workflow wrapper unsubscribes exactly once on every
path. -/
theorem countUnsub_updateAdminWorkflow (cfg : UpdateAdminConfig) (env : UpdateAdminEnv) :
    countUnsub (updateAdminWorkflow cfg env).1 = 1 := by
  have hb := updateAdminBody_no_unsub cfg env
  unfold updateAdminWorkflow
  rcases h : updateAdminBody cfg env with ⟨t, _ | e⟩ <;> rw [h] at hb <;>
    simp only at hb
  · simp [countUnsub, List.count_append, List.count_eq_zero.mpr hb]
  · have h2 : List.count Eff.unsubscribeC (List.map Eff.logChain e.logs) = 0 := by
      rw [List.count_eq_zero]
      simp
    simp [countUnsub, List.count_append, List.count_eq_zero.mpr hb]
    split <;> simp [h2]

/-- Effects of a try-body survive into the wrapped run's trace. -/
theorem mem_tryCatchFinally_of_mem_body (pre : String) (b : List Eff × Option JsError)
    (e : Eff) (h : e ∈ b.1) : e ∈ (tryCatchFinally pre b).1 := by
  obtain ⟨t, _ | er⟩ := b <;> simp_all [tryCatchFinally]

/-- Effects of the admin-update body survive into the workflow trace. -/
theorem mem_updateAdminWorkflow_of_mem_body (cfg : UpdateAdminConfig)
    (env : UpdateAdminEnv) (e : Eff) (h : e ∈ (updateAdminBody cfg env).1) :
    e ∈ (updateAdminWorkflow cfg env).1 := by
  unfold updateAdminWorkflow
  rcases hb : updateAdminBody cfg env with ⟨t, _ | er⟩ <;> rw [hb] at h <;>
    simp_all

/-- Bind on a failed `Except` short-circuits (do-notation reduction). -/
theorem except_bind_error {α β γ : Type} (e : α) (f : β → Except α γ) :
    (Except.error e >>= f) = Except.error e := rfl

/-- Bind on a successful `Except` applies the continuation. -/
theorem except_bind_ok {α β γ : Type} (b : β) (f : β → Except α γ) :
    (Except.ok b >>= f : Except α γ) = f b := rfl

/-! ## Claim C1 -/

/-- Environment exhibiting the C1 counterexample: in the perp-market
creation script the pre-subscription state-account check passes and
`subscribe()` itself throws. -/
def c1PerpEnv : CreatePerpEnv :=
  { statePk := 7, accountInfoR := .ok (some ()),
    subscribeR := .error ⟨"subscription failed", []⟩,
    numberOfMarkets := 0, perpIxsR := .ok [1], blockhash0 := 11, send1R := .ok 21,
    confirm1R := .ok none, predIxR := .ok [2], blockhash1 := 12, send2R := .ok 22,
    confirm2R := .ok none }

/-- All-ok environment for the perp-market creation script. -/
def c1PerpOkEnv : CreatePerpEnv :=
  { statePk := 7, accountInfoR := .ok (some ()), subscribeR := .ok (),
    numberOfMarkets := 0, perpIxsR := .ok [1], blockhash0 := 11, send1R := .ok 21,
    confirm1R := .ok none, predIxR := .ok [2], blockhash1 := 12, send2R := .ok 22,
    confirm2R := .ok none }

/-- C1, counterexample.  The claim says every subscribing script
unsubscribes exactly once on every exit path, including an exception
thrown by subscribe itself.  In the perp-market creation script,
`subscribe()` sits before the `try` block: when it throws, the invocation
ends with zero unsubscribes. -/
theorem c1_counterexample :
    countUnsub (createPerpMarketRun 1 c1PerpEnv).1 = 0 := by decide

/-- C1, amended.  The spot-market creation scripts (both variants), the
admin-update workflow, the user-creation script, the order-placement
script, and the state-inspection script unsubscribe exactly once per
invocation on every exit path, including a failure of subscribe itself.
The perp-market creation script unsubscribes exactly once only when its
pre-subscription state-account check and `subscribe()` both succeed; when
subscribe throws, the invocation ends without unsubscribing. -/
theorem c1_unsubscribe_amended :
    (∀ pk env, countUnsub (createSpotMarketSrcRun pk env).1 = 1) ∧
    (∀ pk iaw maw ilw mlw env,
       countUnsub (createSpotMarketValidatedRun pk iaw maw ilw mlw env).1 = 1) ∧
    (∀ cfg env, countUnsub (updateAdminWorkflow cfg env).1 = 1) ∧
    (∀ pk env, countUnsub (createUserRun pk env).1 = 1) ∧
    (∀ pk env, countUnsub (placeOrderRun pk env).1 = 1) ∧
    (∀ env, countUnsub (checkStateRun env).1 = 1) ∧
    (∀ pk env, env.accountInfoR = Except.ok (some ()) → env.subscribeR = Except.ok () →
       countUnsub (createPerpMarketRun pk env).1 = 1) ∧
    (∀ pk env e, env.accountInfoR = Except.ok (some ()) →
       env.subscribeR = Except.error e →
       countUnsub (createPerpMarketRun pk env).1 = 0) := by
  refine ⟨fun pk env => countUnsub_tryCatchFinally _ _ (createSpotMarketSrcBody_no_unsub pk env),
          fun pk iaw maw ilw mlw env =>
            countUnsub_tryCatchFinally _ _
              (createSpotMarketValidatedBody_no_unsub pk iaw maw ilw mlw env),
          fun cfg env => countUnsub_updateAdminWorkflow cfg env,
          fun pk env => countUnsub_tryCatchFinally _ _ (createUserBody_no_unsub pk env),
          fun pk env => countUnsub_tryCatchFinally _ _ (placeOrderBody_no_unsub pk env),
          fun env => countUnsub_tryCatchFinally _ _ (checkStateBody_no_unsub env),
          ?_, ?_⟩
  · intro pk env h1 h2
    unfold createPerpMarketRun
    rw [h1, h2]
    have hone : ∀ b : List Eff × Option JsError, Eff.unsubscribeC ∉ b.1 →
        countUnsub ([Eff.readAccount env.statePk, Eff.subscribeC] ++
          (tryCatchFinally "Error: " b).1) = 1 := by
      intro b hb
      have := countUnsub_tryCatchFinally "Error: " b hb
      simp_all [countUnsub, List.count_append]
    apply hone
    repeat' split
    all_goals simp
  · intro pk env e h1 h2
    unfold createPerpMarketRun
    rw [h1, h2]
    simp [countUnsub]

/-- C1, witness for the amended theorem: at concrete environments the
perp-market script unsubscribes once when subscribe succeeds and zero
times when subscribe throws. -/
theorem c1_amended_witness :
    countUnsub (createPerpMarketRun 1 c1PerpOkEnv).1 = 1 ∧
    countUnsub (createPerpMarketRun 1 c1PerpEnv).1 = 0 :=
  ⟨c1_unsubscribe_amended.2.2.2.2.2.2.1 1 c1PerpOkEnv rfl rfl,
   c1_unsubscribe_amended.2.2.2.2.2.2.2 1 c1PerpEnv ⟨"subscription failed", []⟩ rfl rfl⟩

/-! ## Claim C2 -/

/-- Environment exhibiting the C2 counterexample: in the validated
spot-market creation script the on-chain admin (2) differs from the
loaded signer (1) and every external call would succeed. -/
def c2Env : CSMValidatedEnv :=
  { subscribeR := .ok (), stateOpt := some ⟨2, 3, 0, 0⟩, driftSignerPda := 3,
    usdcMint := 4, mintDecimalsR := .ok (some 6), spotIxsR := .ok [5],
    blockhash0 := 9, sendR := .ok 33, confirmR := .ok none }

/-- C2, counterexample.  The claim says every admin operation with an
authority mismatch logs a warning and still attempts submission.  In the
validated spot-market creation script a mismatch is a hard local failure
(`Current wallet is not the admin`): the run submits nothing and the
thrown error is logged by the outer catch. -/
theorem c2_counterexample :
    submits (createSpotMarketValidatedRun 1 1 1 1 1 c2Env).1 = false ∧
    Eff.logErr ("Error: " ++ "Current wallet is not the admin") ∈
      (createSpotMarketValidatedRun 1 1 1 1 1 c2Env).1 ∧
    (∀ s, Eff.logWarn s ∉ (createSpotMarketValidatedRun 1 1 1 1 1 c2Env).1) := by
  refine ⟨by decide, by decide, ?_⟩
  intro s
  simp [createSpotMarketValidatedRun, createSpotMarketValidatedBody, tryCatchFinally, c2Env]

/-- C2, amended.  The admin-update script treats an authority mismatch as
a warning only: it logs the mismatch warning and still attempts the
submission, so a rejection would come from the network.  The validated
spot-market creation script instead treats the mismatch as a hard local
failure: it throws `Current wallet is not the admin` before any
submission and no submission effect is attempted. -/
theorem c2_mismatch_amended :
    (∀ cfg env admin, env.subscribeR = Except.ok () →
       env.fetchAdminR = Except.ok admin → admin ≠ cfg.signerPk →
       Eff.logWarn adminMismatchWarning ∈ (updateAdminWorkflow cfg env).1 ∧
       Eff.submitViaClient "updateAdmin" ∈ (updateAdminWorkflow cfg env).1) ∧
    (∀ pk iaw maw ilw mlw env st, env.subscribeR = Except.ok () →
       env.stateOpt = some st → env.driftSignerPda = st.signerField →
       st.numberOfMarkets = 0 → st.numberOfSpotMarkets = 0 → pk ≠ st.admin →
       submits (createSpotMarketValidatedRun pk iaw maw ilw mlw env).1 = false ∧
       Eff.logErr ("Error: " ++ "Current wallet is not the admin") ∈
         (createSpotMarketValidatedRun pk iaw maw ilw mlw env).1) := by
  constructor
  · intro cfg env admin h1 h2 h3
    have hwarn : Eff.logWarn adminMismatchWarning ∈ (updateAdminBody cfg env).1 ∧
        Eff.submitViaClient "updateAdmin" ∈ (updateAdminBody cfg env).1 := by
      unfold updateAdminBody
      rw [h1, h2]
      simp only [if_neg h3]
      rcases env.updateAdminR with e | sig
      · simp
      rcases env.confirmR with e2 | u2
      · simp
      rcases env.fetchAccountsR with e3 | u3
      · simp
      rcases env.refetchAdminR with e4 | a4
      · simp
      by_cases ha : a4 = cfg.newAdmin <;> simp [ha]
    exact ⟨mem_updateAdminWorkflow_of_mem_body cfg env _ hwarn.1,
           mem_updateAdminWorkflow_of_mem_body cfg env _ hwarn.2⟩
  · intro pk iaw maw ilw mlw env st h1 h2 h3 h4 h5 h6
    have hbody : createSpotMarketValidatedBody pk iaw maw ilw mlw env =
        ([Eff.subscribeC], some ⟨"Current wallet is not the admin", []⟩) := by
      unfold createSpotMarketValidatedBody
      rw [h1, h2]
      simp [h3, h4, h5, h6]
    unfold createSpotMarketValidatedRun
    rw [hbody]
    simp [tryCatchFinally, submits, isSubmission]

/-- Concrete admin-update environment with on-chain admin 9 differing
from the loaded signer 1. -/
def c2UpdateEnv : UpdateAdminEnv :=
  { statePk := 5, subscribeR := .ok (), fetchAdminR := .ok 9, updateAdminR := .ok 42,
    blockhash0 := 8, confirmR := .ok (), fetchAccountsR := .ok (), refetchAdminR := .ok 12 }

/-- C2, witness for the amended theorem at concrete inputs: the
admin-update workflow with admin 9 and signer 1 warns and still submits;
the validated script with signer 1 and admin 2 submits nothing. -/
theorem c2_witness :
    (Eff.logWarn adminMismatchWarning ∈
       (updateAdminWorkflow ⟨1, 10, 12⟩ c2UpdateEnv).1 ∧
     Eff.submitViaClient "updateAdmin" ∈
       (updateAdminWorkflow ⟨1, 10, 12⟩ c2UpdateEnv).1) ∧
    (submits (createSpotMarketValidatedRun 1 1 1 1 1 c2Env).1 = false ∧
     Eff.logErr ("Error: " ++ "Current wallet is not the admin") ∈
       (createSpotMarketValidatedRun 1 1 1 1 1 c2Env).1) :=
  ⟨c2_mismatch_amended.1 ⟨1, 10, 12⟩ c2UpdateEnv 9 rfl rfl (by decide),
   c2_mismatch_amended.2 1 1 1 1 1 c2Env ⟨2, 3, 0, 0⟩ rfl rfl rfl rfl rfl (by decide)⟩

/-! ## Claim C3 -/

/-- Environment exhibiting the C3 counterexample: send succeeds and the
confirmation resolves while carrying a non-null on-chain error in its
`value.err` field. -/
def c3Env : CreateSpotMarketEnv :=
  { subscribeR := .ok (), numberOfMarkets := 0, spotIxsR := .ok [5],
    blockhash0 := 9, sendR := .ok 33, confirmR := .ok (some "InstructionError") }

/-- C3, counterexample.  The claim says a confirmation result indicating
an on-chain error never leads to a success report.  `create-spot-market.ts`
never inspects `confirmation.value.err`: with a resolved confirmation
carrying an on-chain error it still logs the success report. -/
theorem c3_counterexample :
    c3Env.confirmR = Except.ok (some "InstructionError") ∧
    Eff.logMsg "USDC spot market initialized!" ∈ (createSpotMarketSrcRun 1 c3Env).1 := by
  exact ⟨rfl, by decide⟩

/-- A `console.log` statement line (`logMsg`) in the admin-update
workflow trace must come from the try-body: the catch/finally wrapper
adds only `logErr`, `logChain`, and `unsubscribeC` effects. -/
theorem logMsg_mem_updateAdminBody (cfg : UpdateAdminConfig) (env : UpdateAdminEnv)
    (s : String) (h : Eff.logMsg s ∈ (updateAdminWorkflow cfg env).1) :
    Eff.logMsg s ∈ (updateAdminBody cfg env).1 := by
  unfold updateAdminWorkflow at h
  rcases hb : updateAdminBody cfg env with ⟨t, _ | er⟩ <;> rw [hb] at h
  · simp_all
  · by_cases hl : er.logs.isEmpty = true <;> simp_all [List.mem_map]

/-- C3, amended.  Success is reported only after the confirmation call on
the submitted signature resolves: a submission signature alone never
produces a success report (in `create-spot-market.ts`,
`initialize-program.ts`, and the admin-update workflow, the success /
confirmed reports require both a successful send and a resolved
confirmation).  However, the scripts never inspect the resolved
confirmation's error field: `create-spot-market.ts` reports success for
every resolved confirmation payload, including one that indicates an
on-chain error. -/
theorem c3_success_requires_confirmation_amended :
    (∀ pk env, Eff.logMsg "USDC spot market initialized!" ∈ (createSpotMarketSrcRun pk env).1 →
       (∃ sig, env.sendR = Except.ok sig) ∧ (∃ ce, env.confirmR = Except.ok ce)) ∧
    (∀ env, Eff.logMsg "Program initialized successfully!" ∈ (initializeProgramRun env).1 →
       (∃ sig, env.sendR = Except.ok sig) ∧ (∃ ce, env.confirmR = Except.ok ce)) ∧
    (∀ cfg env, Eff.logMsg "Transaction confirmed." ∈ (updateAdminWorkflow cfg env).1 →
       env.confirmR = Except.ok ()) ∧
    (∀ pk env sig ce, env.subscribeR = Except.ok () → env.sendR = Except.ok sig →
       env.confirmR = Except.ok ce → (∃ ixs, env.spotIxsR = Except.ok ixs) →
       Eff.logMsg "USDC spot market initialized!" ∈ (createSpotMarketSrcRun pk env).1) := by
  refine ⟨?_, ?_, ?_, ?_⟩
  · intro pk env h
    unfold createSpotMarketSrcRun createSpotMarketSrcBody tryCatchFinally at h
    rcases hsub : env.subscribeR with e | u <;> rw [hsub] at h
    · simp at h
    rcases hix : env.spotIxsR with e2 | ixs <;> rw [hix] at h
    · simp at h
    rcases hs : env.sendR with e3 | sig <;> rw [hs] at h
    · simp at h
    rcases hc : env.confirmR with e4 | ce <;> rw [hc] at h
    · simp at h
    exact ⟨⟨sig, rfl⟩, ⟨ce, rfl⟩⟩
  · intro env h
    unfold initializeProgramRun at h
    rcases hcfg : initializeProgramConfig env.world with e | cfg <;> rw [hcfg] at h
    · simp at h
    rcases hs : env.sendR with e3 | sig <;> rw [hs] at h
    · simp at h
    rcases hc : env.confirmR with e4 | ce <;> rw [hc] at h
    · simp at h
    exact ⟨⟨sig, rfl⟩, ⟨ce, rfl⟩⟩
  · intro cfg env h
    replace h := logMsg_mem_updateAdminBody cfg env _ h
    unfold updateAdminBody at h
    rcases hsub : env.subscribeR with e | u <;> rw [hsub] at h
    · simp at h
    rcases hfa : env.fetchAdminR with e2 | ad <;> rw [hfa] at h
    · simp at h
    by_cases hw : ad = cfg.signerPk <;> simp only [hw, if_pos, if_neg, ite_true, ite_false,
      not_false_eq_true, not_true_eq_false] at h <;>
      rcases hupd : env.updateAdminR with e3 | sig <;> rw [hupd] at h <;>
      rcases hc : env.confirmR with e4 | u4 <;> rw [hc] at h <;>
      first
        | exact hc
        | (exfalso; rcases hfac : env.fetchAccountsR with e5 | u5 <;> rw [hfac] at h <;>
           rcases href : env.refetchAdminR with e6 | a6 <;> rw [href] at h <;>
           (try (by_cases hn : a6 = cfg.newAdmin <;> simp only [hn, ite_true, ite_false] at h)) <;>
           simp at h)
  · intro pk env sig ce h1 h2 h3 h4
    rcases h4 with ⟨ixs, h4⟩
    unfold createSpotMarketSrcRun createSpotMarketSrcBody
    rw [h1, h2, h3, h4]
    simp [tryCatchFinally]

/-- All-ok environment for `create-spot-market.ts` used by the C3 witness. -/
def c3WitEnv : CreateSpotMarketEnv :=
  { subscribeR := .ok (), numberOfMarkets := 0, spotIxsR := .ok [5],
    blockhash0 := 9, sendR := .ok 33, confirmR := .ok none }

/-- C3, witness for the amended theorem: at a concrete all-ok environment
the success report appears, and by the theorem it implies the send and
confirmation both resolved. -/
theorem c3_witness :
    Eff.logMsg "USDC spot market initialized!" ∈ (createSpotMarketSrcRun 2 c3WitEnv).1 ∧
    ((∃ sig, c3WitEnv.sendR = Except.ok sig) ∧
     (∃ ce, c3WitEnv.confirmR = Except.ok ce)) :=
  ⟨c3_success_requires_confirmation_amended.2.2.2 2 c3WitEnv 33 none rfl rfl rfl ⟨[5], rfl⟩,
   c3_success_requires_confirmation_amended.1 2 c3WitEnv
     (c3_success_requires_confirmation_amended.2.2.2 2 c3WitEnv 33 none rfl rfl rfl ⟨[5], rfl⟩)⟩

/-! ## Claim C4 -/

/-- A Node world in which every configuration setting the scripts read is
present and well-formed. -/
def goodWorld : NodeWorld :=
  { envVar := fun s =>
      if s = "ADMIN_PRIVATE_KEY_PATH" then some "key.json"
      else if s = "PROGRAM_ID" then some "Prog"
      else if s = "USDC_MINT" then some "Mint"
      else if s = "DRIFT_PROGRAM_ID" then some "Prog"
      else if s = "NEW_ADMIN_PUBLIC_KEY" then some "NewAdmin"
      else none,
    fileContent := fun _ => some "[1,2]",
    jsonBytes := fun _ => some [1, 2],
    secretKeyPub := fun _ => some 1,
    pubkeyOf := fun s =>
      if s = "Prog" then some 10 else if s = "Mint" then some 11
      else if s = "NewAdmin" then some 12 else none,
    homedir := "home" }

/-- Environment exhibiting the C4 counterexample: valid configuration,
preflight rejects the submission with attached program log lines. -/
def c4Env : InitProgramEnv :=
  { world := goodWorld, blockhash0 := 9,
    sendR := .error ⟨"Simulation failed", ["Program log: insufficient funds"]⟩,
    confirmR := .ok none }

/-- C4, counterexample.  The claim says an unhandled top-level failure
terminates the process with a non-zero status and no failure path exits
with status zero.  In `initialize-program.ts` a send failure is rethrown
and rejects `main`, but the final handler is `main().catch(console.error)`,
so the process logs the error (and its program log lines) and exits 0. -/
theorem c4_counterexample :
    (initializeProgramRun c4Env).2 =
      Outcome.rejected ⟨"Simulation failed", ["Program log: insufficient funds"]⟩ ∧
    Eff.logErr ("Transaction failed: " ++ "Simulation failed") ∈ (initializeProgramProcess c4Env).1 ∧
    Eff.logChain "Program log: insufficient funds" ∈ (initializeProgramProcess c4Env).1 ∧
    (initializeProgramProcess c4Env).2 = 0 := by
  refine ⟨by decide, by decide, by decide, by decide⟩

/-- C4, amended.  The repository has three handler styles.  The
admin-update script installs a `process.exit(1)` rejection handler: its
unhandled top-level failures (which are exactly the configuration-phase
errors, since the workflow catch swallows everything else) are logged and
exit non-zero, while its caught workflow failures exit zero.  The six
scripts that end with `main().catch(console.error)` — initialize-program,
both spot-market creation scripts, perp-market creation, user creation,
and state inspection — log an unhandled top-level failure (for
initialize-program together with any attached on-chain program log lines)
but exit with status zero on every run.  The order-placement and mint
scripts attach no rejection handler at all: place-order's module-scope
keypair load fails as an uncaught exception and any mint-script failure
as an unhandled rejection, both terminating non-zero by Node's default,
while their resolved runs — including place-order's caught workflow
failures — exit zero. -/
theorem c4_exit_codes_amended :
    (∀ w env e, updateAdminConfig w = Except.error e →
       (updateAdminProcess w env).2 = 1 ∧
       Eff.logErr ("Unhandled error in main: " ++ e.msg) ∈ (updateAdminProcess w env).1) ∧
    (∀ w env cfg, updateAdminConfig w = Except.ok cfg →
       (updateAdminProcess w env).2 = 0) ∧
    (∀ env, (initializeProgramProcess env).2 = 0) ∧
    (∀ env e, (initializeProgramRun env).2 = Outcome.rejected e →
       Eff.logErr e.msg ∈ (initializeProgramProcess env).1) ∧
    (∀ pk env, (createSpotMarketSrcProcess pk env).2 = 0) ∧
    (∀ pk iaw maw ilw mlw env,
       (createSpotMarketValidatedProcess pk iaw maw ilw mlw env).2 = 0) ∧
    (∀ pk env, (createPerpMarketProcess pk env).2 = 0) ∧
    (∀ pk env, (createUserProcess pk env).2 = 0) ∧
    (∀ env, (checkStateProcess env).2 = 0) ∧
    (∀ w env e, keypairJsonLoad w = Except.error e →
       placeOrderProcess w env = ([Eff.logErr e.msg], 1)) ∧
    (∀ w env pk, keypairJsonLoad w = Except.ok pk →
       (placeOrderProcess w env).2 = 0) ∧
    (∀ env e, (mockUSDCMintRun env).2 = Outcome.rejected e →
       (mockUSDCMintProcess env).2 = 1 ∧
       Eff.logErr e.msg ∈ (mockUSDCMintProcess env).1) ∧
    (∀ env, (mockUSDCMintRun env).2 = Outcome.resolved →
       (mockUSDCMintProcess env).2 = 0) := by
  refine ⟨?_, ?_, ?_, ?_, ?_, ?_, ?_, ?_, ?_, ?_, ?_, ?_, ?_⟩
  · intro w env e he
    unfold updateAdminProcess updateAdminRun
    rw [he]
    simp
  · intro w env cfg hc
    have hres : (updateAdminWorkflow cfg env).2 = Outcome.resolved := by
      unfold updateAdminWorkflow
      rcases updateAdminBody cfg env with ⟨t, _ | er⟩ <;> simp
    have hrun : updateAdminRun w env = updateAdminWorkflow cfg env := by
      unfold updateAdminRun
      rw [hc]
    unfold updateAdminProcess
    rw [hrun]
    rcases hw : updateAdminWorkflow cfg env with ⟨t, o⟩
    rw [hw] at hres
    simp at hres
    subst hres
    simp
  · intro env
    unfold initializeProgramProcess
    rcases hr : initializeProgramRun env with ⟨t, o⟩
    rcases o with _ | e <;> simp
  · intro env e he
    unfold initializeProgramProcess
    rcases hr : initializeProgramRun env with ⟨t, o⟩
    rw [hr] at he
    simp at he
    rw [he]
    simp
  · intro pk env
    exact catchConsoleErrorProcess_exit _
  · intro pk iaw maw ilw mlw env
    exact catchConsoleErrorProcess_exit _
  · intro pk env
    exact catchConsoleErrorProcess_exit _
  · intro pk env
    exact catchConsoleErrorProcess_exit _
  · intro env
    exact catchConsoleErrorProcess_exit _
  · intro w env e he
    unfold placeOrderProcess
    rw [he]
  · intro w env pk hp
    unfold placeOrderProcess
    rw [hp]
    exact noHandlerProcess_exit_of_resolved _ (tryCatchFinally_resolved _ _)
  · intro env e he
    unfold mockUSDCMintProcess noHandlerProcess
    rcases hr : mockUSDCMintRun env with ⟨t, o⟩
    rw [hr] at he
    simp at he
    subst he
    simp
  · intro env he
    unfold mockUSDCMintProcess noHandlerProcess
    rcases hr : mockUSDCMintRun env with ⟨t, o⟩
    rw [hr] at he
    simp at he
    subst he
    simp

/-- A Node world whose only setting is the admin key path: the
admin-update config phase fails on DRIFT_PROGRAM_ID. -/
def c4BadWorld : NodeWorld :=
  { goodWorld with
    envVar := fun s => if s = "ADMIN_PRIVATE_KEY_PATH" then some "key.json" else none }

/-- A Node world with no key file on disk: `keypair.json` is missing. -/
def c4NoKeyWorld : NodeWorld :=
  { goodWorld with fileContent := fun _ => none }

/-- Concrete order-placement environment for the C4 witness. -/
def c4OrderEnv : PlaceOrderEnv :=
  { userPk := 3, subscribeR := .ok (), stateR := .ok (), perpAccountR := .ok (some ()),
    spotAccount := some (), orderIxR := .ok [6], blockhash0 := 9, sendR := .ok 44,
    confirmR := .ok none }

/-- Concrete mint-script environment whose first
`sendAndConfirmTransaction` rejects. -/
def c4MintEnv : MockMintEnv :=
  { world := goodWorld, rentR := .ok 100,
    send1R := .error ⟨"blockhash not found", []⟩, send2R := .ok 2 }

/-- C4, witness for the amended theorem at concrete inputs: the
admin-update process exits 1 on a missing DRIFT_PROGRAM_ID;
`initialize-program.ts` exits 0 on its rejected send-failure run;
`place-order.ts` exits 1 when `keypair.json` is missing and 0 when it
loads; the mint script exits 1 on a rejected submission. -/
theorem c4_witness :
    ((updateAdminProcess c4BadWorld c2UpdateEnv).2 = 1 ∧
     Eff.logErr ("Unhandled error in main: " ++ "DRIFT_PROGRAM_ID environment variable not set.") ∈
       (updateAdminProcess c4BadWorld c2UpdateEnv).1) ∧
    (initializeProgramProcess c4Env).2 = 0 ∧
    placeOrderProcess c4NoKeyWorld c4OrderEnv =
      ([Eff.logErr "ENOENT: no such file or directory, open keypair.json"], 1) ∧
    (placeOrderProcess goodWorld c4OrderEnv).2 = 0 ∧
    ((mockUSDCMintProcess c4MintEnv).2 = 1 ∧
     Eff.logErr "blockhash not found" ∈ (mockUSDCMintProcess c4MintEnv).1) :=
  ⟨c4_exit_codes_amended.1 c4BadWorld c2UpdateEnv
     ⟨"DRIFT_PROGRAM_ID environment variable not set.", []⟩ rfl,
   c4_exit_codes_amended.2.2.1 c4Env,
   c4_exit_codes_amended.2.2.2.2.2.2.2.2.2.1 c4NoKeyWorld c4OrderEnv
     ⟨"ENOENT: no such file or directory, open keypair.json", []⟩ rfl,
   c4_exit_codes_amended.2.2.2.2.2.2.2.2.2.2.1 goodWorld c4OrderEnv 1 rfl,
   c4_exit_codes_amended.2.2.2.2.2.2.2.2.2.2.2.1 c4MintEnv
     ⟨"blockhash not found", []⟩ rfl⟩

/-! ## Claim C5 -/

/-- The four weight-validation error messages of the validated spot-market
script, each naming its weight. -/
def weightErrorMsgs : List String :=
  ["Initial asset weight too high", "Maintenance asset weight too high",
   "Initial liability weight too high", "Maintenance liability weight too high"]

/-- C5.  For every market-creation input in which a proposed weight value
exceeds `SPOT_MARKET_WEIGHT_PRECISION` (and the checks preceding the weight
validation pass), the validated spot-market script rejects locally: no
submission effect ever occurs, the thrown error is one of the four
weight-naming validation messages — the one for the first offending weight
in source order — and that message is what the outer catch reports. -/
theorem c5_weight_validation (pk : Nat) (iaw maw ilw mlw : ℚ) (env : CSMValidatedEnv)
    (st : StateFields)
    (hsub : env.subscribeR = Except.ok ()) (hst : env.stateOpt = some st)
    (hsig : env.driftSignerPda = st.signerField)
    (hm : st.numberOfMarkets = 0) (hsm : st.numberOfSpotMarkets = 0)
    (hadmin : pk = st.admin)
    (hw : (SPOT_MARKET_WEIGHT_PRECISION : ℚ) < iaw ∨ (SPOT_MARKET_WEIGHT_PRECISION : ℚ) < maw ∨
          (SPOT_MARKET_WEIGHT_PRECISION : ℚ) < ilw ∨ (SPOT_MARKET_WEIGHT_PRECISION : ℚ) < mlw) :
    submits (createSpotMarketValidatedRun pk iaw maw ilw mlw env).1 = false ∧
    ∃ m, validateMarginWeights iaw maw ilw mlw = some m ∧ m ∈ weightErrorMsgs ∧
      Eff.logErr ("Error: " ++ m) ∈ (createSpotMarketValidatedRun pk iaw maw ilw mlw env).1 := by
  have hv : ∃ m, validateMarginWeights iaw maw ilw mlw = some m ∧ m ∈ weightErrorMsgs := by
    unfold validateMarginWeights weightErrorMsgs
    repeat' split
    any_goals exact ⟨_, rfl, by simp⟩
    exfalso
    rcases hw with h | h | h | h <;> simp_all
  rcases hv with ⟨m, hv, hmem⟩
  have hbody : createSpotMarketValidatedBody pk iaw maw ilw mlw env =
      ([Eff.subscribeC], some ⟨m, []⟩) := by
    unfold createSpotMarketValidatedBody
    rw [hsub, hst]
    simp [hsig, hm, hsm, ← hadmin, hv,
          show ¬((0.2 : ℚ) < 0.1) by norm_num, show ¬((0.8 : ℚ) ≤ 0) by norm_num]
  refine ⟨?_, ⟨m, hv, hmem, ?_⟩⟩ <;>
    · unfold createSpotMarketValidatedRun
      rw [hbody]
      simp [tryCatchFinally, submits, isSubmission]

/-- Otherwise-valid environment for the C5 witness: signer 2 is the
on-chain admin and every external call would succeed. -/
def c5Env : CSMValidatedEnv :=
  { subscribeR := .ok (), stateOpt := some ⟨2, 3, 0, 0⟩, driftSignerPda := 3,
    usdcMint := 4, mintDecimalsR := .ok (some 6), spotIxsR := .ok [5],
    blockhash0 := 9, sendR := .ok 33, confirmR := .ok none }

/-- C5, witness: with all weights 20000 (above the precision 10000) at an
otherwise valid environment, no submission occurs and the first
weight-naming message is reported. -/
theorem c5_witness :
    submits (createSpotMarketValidatedRun 2 20000 20000 20000 20000 c5Env).1 = false ∧
    ∃ m, validateMarginWeights 20000 20000 20000 20000 = some m ∧ m ∈ weightErrorMsgs ∧
      Eff.logErr ("Error: " ++ m) ∈ (createSpotMarketValidatedRun 2 20000 20000 20000 20000 c5Env).1 :=
  c5_weight_validation 2 20000 20000 20000 20000 c5Env ⟨2, 3, 0, 0⟩
    rfl rfl rfl rfl rfl rfl (Or.inl (by norm_num [SPOT_MARKET_WEIGHT_PRECISION]))

/-! ## Claim C6 -/

/-- C6.  Every transaction the workflows build carries fee payer = the
loaded signer's public key and recent blockhash = the blockhash fetched
from the connection at build time.  For the two single-transaction scripts
this holds for every built transaction on every path; for the perp-market
script the full success trace shows each of the two builds immediately
preceded by its own blockhash fetch, with the built transaction carrying
exactly that hash (the most recently fetched one). -/
theorem c6_feepayer_blockhash :
    (∀ env cfg tx, initializeProgramConfig env.world = Except.ok cfg →
       Eff.buildTx tx ∈ (initializeProgramRun env).1 →
       tx.feePayer = some cfg.signerPk ∧ tx.recentBlockhash = some env.blockhash0) ∧
    (∀ pk env tx, Eff.buildTx tx ∈ (createSpotMarketSrcRun pk env).1 →
       tx.feePayer = some pk ∧ tx.recentBlockhash = some env.blockhash0) ∧
    (∀ pk env ixs1 sig1 ce1 ixs2 sig2 ce2,
       env.accountInfoR = Except.ok (some ()) → env.subscribeR = Except.ok () →
       env.perpIxsR = Except.ok ixs1 → env.send1R = Except.ok sig1 →
       env.confirm1R = Except.ok ce1 → env.predIxR = Except.ok ixs2 →
       env.send2R = Except.ok sig2 → env.confirm2R = Except.ok ce2 →
       (createPerpMarketRun pk env).1 =
         [Eff.readAccount env.statePk, Eff.subscribeC,
          Eff.fetchBlockhash env.blockhash0,
          Eff.buildTx ⟨ixs1, some pk, some env.blockhash0⟩,
          Eff.sendTx ⟨ixs1, some pk, some env.blockhash0⟩,
          Eff.confirmTx sig1, Eff.logMsg "Transaction confirmed!",
          Eff.fetchBlockhash env.blockhash1,
          Eff.buildTx ⟨ixs2, some pk, some env.blockhash1⟩,
          Eff.sendTx ⟨ixs2, some pk, some env.blockhash1⟩,
          Eff.confirmTx sig2, Eff.logMsg "Transaction confirmed!",
          Eff.logMsg "Converted to prediction market", Eff.unsubscribeC]) := by
  refine ⟨?_, ?_, ?_⟩
  · intro env cfg tx hcfg h
    unfold initializeProgramRun at h
    rw [hcfg] at h
    rcases hs : env.sendR with e3 | sig <;> rw [hs] at h <;>
      rcases hc : env.confirmR with e4 | ce <;> rw [hc] at h <;>
      (repeat' split at h) <;>
      simp_all [List.mem_map]
  · intro pk env tx h
    unfold createSpotMarketSrcRun createSpotMarketSrcBody tryCatchFinally at h
    rcases hsub : env.subscribeR with e | u <;> rw [hsub] at h
    · simp at h
    rcases hix : env.spotIxsR with e2 | ixs <;> rw [hix] at h
    · simp at h
    rcases hs : env.sendR with e3 | sig <;> rw [hs] at h <;>
      rcases hc : env.confirmR with e4 | ce <;> rw [hc] at h <;>
      simp_all
  · intro pk env ixs1 sig1 ce1 ixs2 sig2 ce2 h1 h2 h3 h4 h5 h6 h7 h8
    unfold createPerpMarketRun
    rw [h1, h2]
    simp only [tryCatchFinally, h3, h4, h5, h6, h7, h8]
    simp

/-- Concrete all-ok environment for `initialize-program.ts` used by the
C6 witness. -/
def c6InitEnv : InitProgramEnv :=
  { world := goodWorld, blockhash0 := 9, sendR := .ok 33, confirmR := .ok none }

/-- Concrete all-ok environment for the perp-market script used by the C6
witness. -/
def c6PerpEnv : CreatePerpEnv :=
  { statePk := 7, accountInfoR := .ok (some ()), subscribeR := .ok (),
    numberOfMarkets := 0, perpIxsR := .ok [1], blockhash0 := 11, send1R := .ok 21,
    confirm1R := .ok none, predIxR := .ok [2], blockhash1 := 12, send2R := .ok 22,
    confirm2R := .ok none }

/-- C6, witness: at concrete environments, the single built transaction of
`initialize-program.ts` carries the signer fee payer and fetched blockhash,
and the perp-market success trace is the expected one with each build
adjacent to its own fetch. -/
theorem c6_witness :
    ((⟨[initializeIxCode], some 1, some 9⟩ : Tx).feePayer = some 1 ∧
     (⟨[initializeIxCode], some 1, some 9⟩ : Tx).recentBlockhash = some 9) ∧
    (createPerpMarketRun 1 c6PerpEnv).1 =
      [Eff.readAccount 7, Eff.subscribeC, Eff.fetchBlockhash 11,
       Eff.buildTx ⟨[1], some 1, some 11⟩, Eff.sendTx ⟨[1], some 1, some 11⟩,
       Eff.confirmTx 21, Eff.logMsg "Transaction confirmed!",
       Eff.fetchBlockhash 12, Eff.buildTx ⟨[2], some 1, some 12⟩,
       Eff.sendTx ⟨[2], some 1, some 12⟩, Eff.confirmTx 22,
       Eff.logMsg "Transaction confirmed!",
       Eff.logMsg "Converted to prediction market", Eff.unsubscribeC] :=
  ⟨c6_feepayer_blockhash.1 c6InitEnv ⟨1, 10, 11⟩ ⟨[initializeIxCode], some 1, some 9⟩
     rfl (by decide),
   c6_feepayer_blockhash.2.2 1 c6PerpEnv [1] 21 none [2] 22 none
     rfl rfl rfl rfl rfl rfl rfl rfl⟩

/-! ## Claim C7 -/

/-- C7.  In the admin-update workflow with the loaded signer equal to the
current on-chain admin: after a confirmed submission targeting new admin
Y, the script re-fetches the state account and reports success with the
new admin value exactly when the re-fetched admin equals Y; on a mismatch
it emits the verification-failure report, which is the only error-report
line of the run — in particular distinct from the submission/confirmation
failure report (the `Error updating admin:`-prefixed catch line). -/
theorem c7_admin_update_verification (cfg : UpdateAdminConfig) (env : UpdateAdminEnv)
    (admin0 : Nat) (sig : Nat) (a : Nat)
    (h0 : admin0 = cfg.signerPk)
    (h1 : env.subscribeR = Except.ok ()) (h2 : env.fetchAdminR = Except.ok admin0)
    (h3 : env.updateAdminR = Except.ok sig) (h4 : env.confirmR = Except.ok ())
    (h5 : env.fetchAccountsR = Except.ok ()) (h6 : env.refetchAdminR = Except.ok a) :
    (Eff.logMsg "Successfully updated admin" ∈ (updateAdminWorkflow cfg env).1 ↔
       a = cfg.newAdmin) ∧
    (a ≠ cfg.newAdmin →
       Eff.logErr verifyFailedMsg ∈ (updateAdminWorkflow cfg env).1 ∧
       ∀ s, Eff.logErr s ∈ (updateAdminWorkflow cfg env).1 → s = verifyFailedMsg) := by
  have hbody : updateAdminBody cfg env =
      ([Eff.subscribeC, Eff.readAccount env.statePk] ++ [] ++ [Eff.submitViaClient "updateAdmin"]
        ++ [Eff.logMsg "Update admin transaction sent",
            Eff.fetchBlockhash env.blockhash0, Eff.confirmTx sig]
        ++ [Eff.logMsg "Transaction confirmed."] ++ [Eff.readAccount env.statePk]
        ++ (if a = cfg.newAdmin then [Eff.logMsg "Successfully updated admin"]
            else [Eff.logErr verifyFailedMsg]), none) := by
    unfold updateAdminBody
    rw [h1, h2, h3, h4, h5, h6]
    simp [h0]
    split <;> simp
  have hrun : updateAdminWorkflow cfg env =
      (([Eff.subscribeC, Eff.readAccount env.statePk] ++ [] ++ [Eff.submitViaClient "updateAdmin"]
        ++ [Eff.logMsg "Update admin transaction sent",
            Eff.fetchBlockhash env.blockhash0, Eff.confirmTx sig]
        ++ [Eff.logMsg "Transaction confirmed."] ++ [Eff.readAccount env.statePk]
        ++ (if a = cfg.newAdmin then [Eff.logMsg "Successfully updated admin"]
            else [Eff.logErr verifyFailedMsg])) ++ [Eff.unsubscribeC], Outcome.resolved) := by
    unfold updateAdminWorkflow
    rw [hbody]
  constructor
  · rw [hrun]
    by_cases hn : a = cfg.newAdmin <;> simp [hn]
  · intro hn
    rw [hrun]
    constructor
    · simp [hn]
    · intro s hs
      simp [hn] at hs
      exact hs

/-- Concrete admin-update environments for the C7 witness: signer 1 is
the current admin; the target new admin is 12; one environment re-fetches
admin 12 (success) and the other re-fetches 7 (verification mismatch). -/
def c7EnvOk : UpdateAdminEnv :=
  { statePk := 5, subscribeR := .ok (), fetchAdminR := .ok 1, updateAdminR := .ok 42,
    blockhash0 := 8, confirmR := .ok (), fetchAccountsR := .ok (), refetchAdminR := .ok 12 }

/-- C7 witness environment with a post-confirmation mismatch. -/
def c7EnvBad : UpdateAdminEnv :=
  { statePk := 5, subscribeR := .ok (), fetchAdminR := .ok 1, updateAdminR := .ok 42,
    blockhash0 := 8, confirmR := .ok (), fetchAccountsR := .ok (), refetchAdminR := .ok 7 }

/-- C7, witness: with re-fetched admin equal to the target the success
report appears, and with a different re-fetched admin the verification
failure is the only error-report line. -/
theorem c7_witness :
    Eff.logMsg "Successfully updated admin" ∈ (updateAdminWorkflow ⟨1, 10, 12⟩ c7EnvOk).1 ∧
    (Eff.logErr verifyFailedMsg ∈ (updateAdminWorkflow ⟨1, 10, 12⟩ c7EnvBad).1 ∧
     ∀ s, Eff.logErr s ∈ (updateAdminWorkflow ⟨1, 10, 12⟩ c7EnvBad).1 → s = verifyFailedMsg) :=
  ⟨((c7_admin_update_verification ⟨1, 10, 12⟩ c7EnvOk 1 42 12
      rfl rfl rfl rfl rfl rfl rfl).1).mpr rfl,
   (c7_admin_update_verification ⟨1, 10, 12⟩ c7EnvBad 1 42 7
      rfl rfl rfl rfl rfl rfl rfl).2 (by decide)⟩

/-! ## Claim C8 -/

/-- C8.  When the confirmation wait ends in a rejection (modelled from the
spec: `confirmTransaction` is bounded by the blockhash validity window /
the library's wait timeout and rejects with an expiry error when no
confirmation is observed in time), each script reports a failure carrying
that error and never reports success: the admin-update workflow logs the
catch-path failure and neither `Transaction confirmed.` nor the success
report appears; `initialize-program.ts` logs the failure and rejects
`main` with the expiry error; `place-order.ts` logs its catch-path failure
and never logs `Order placed!`.  Every run of the embedding is a finite
trace, so no path waits forever. -/
theorem c8_confirmation_timeout :
    (∀ cfg env admin0 sig e, env.subscribeR = Except.ok () →
       env.fetchAdminR = Except.ok admin0 → env.updateAdminR = Except.ok sig →
       env.confirmR = Except.error e →
       Eff.logErr (updateAdminCatchPrefix ++ e.msg) ∈ (updateAdminWorkflow cfg env).1 ∧
       Eff.logMsg "Transaction confirmed." ∉ (updateAdminWorkflow cfg env).1 ∧
       Eff.logMsg "Successfully updated admin" ∉ (updateAdminWorkflow cfg env).1) ∧
    (∀ env cfg sig e, initializeProgramConfig env.world = Except.ok cfg →
       env.sendR = Except.ok sig → env.confirmR = Except.error e →
       Eff.logErr ("Transaction failed: " ++ e.msg) ∈ (initializeProgramRun env).1 ∧
       Eff.logMsg "Program initialized successfully!" ∉ (initializeProgramRun env).1 ∧
       (initializeProgramRun env).2 = Outcome.rejected e) ∧
    (∀ pk env ixs sig e, env.subscribeR = Except.ok () → env.stateR = Except.ok () →
       env.perpAccountR = Except.ok (some ()) → env.spotAccount = some () →
       env.orderIxR = Except.ok ixs →
       env.sendR = Except.ok sig → env.confirmR = Except.error e →
       Eff.logErr ("Error placing order: " ++ e.msg) ∈ (placeOrderRun pk env).1 ∧
       Eff.logMsg "Order placed!" ∉ (placeOrderRun pk env).1) := by
  refine ⟨?_, ?_, ?_⟩
  · intro cfg env admin0 sig e h1 h2 h3 h4
    have hbody : updateAdminBody cfg env =
        ([Eff.subscribeC, Eff.readAccount env.statePk]
          ++ (if admin0 = cfg.signerPk then [] else [Eff.logWarn adminMismatchWarning])
          ++ [Eff.submitViaClient "updateAdmin"]
          ++ [Eff.logMsg "Update admin transaction sent",
              Eff.fetchBlockhash env.blockhash0, Eff.confirmTx sig], some e) := by
      unfold updateAdminBody
      rw [h1, h2, h3, h4]
    unfold updateAdminWorkflow
    rw [hbody]
    refine ⟨?_, ?_, ?_⟩ <;>
      by_cases hw : admin0 = cfg.signerPk <;>
      by_cases hl : e.logs.isEmpty = true <;>
      simp [hw, hl, List.mem_map]
  · intro env cfg sig e h1 h2 h3
    unfold initializeProgramRun
    rw [h1, h2, h3]
    by_cases hl : e.logs.isEmpty = true <;> simp [hl, List.mem_map]
  · intro pk env ixs sig e h1 h2 h3 h4 h5 h6 h7
    have hbody : placeOrderBody pk env =
        ([Eff.subscribeC, Eff.fetchBlockhash env.blockhash0,
          Eff.buildTx ⟨ixs, some pk, some env.blockhash0⟩,
          Eff.sendTx ⟨ixs, some pk, some env.blockhash0⟩, Eff.confirmTx sig], some e) := by
      unfold placeOrderBody
      rw [h1, h2, h3, h4, h5, h6, h7]
      rfl
    unfold placeOrderRun
    rw [hbody]
    simp [tryCatchFinally]

/-- Concrete admin-update environment whose confirmation wait rejects with
an expiry error. -/
def c8UpdateEnv : UpdateAdminEnv :=
  { statePk := 5, subscribeR := .ok (), fetchAdminR := .ok 1, updateAdminR := .ok 42,
    blockhash0 := 8, confirmR := .error ⟨"block height exceeded", []⟩,
    fetchAccountsR := .ok (), refetchAdminR := .ok 12 }

/-- Concrete order-placement environment whose confirmation wait rejects
with the legacy timeout error. -/
def c8OrderEnv : PlaceOrderEnv :=
  { userPk := 3, subscribeR := .ok (), stateR := .ok (), perpAccountR := .ok (some ()),
    spotAccount := some (), orderIxR := .ok [6], blockhash0 := 9, sendR := .ok 44,
    confirmR := .error ⟨"Transaction was not confirmed in 30 seconds", []⟩ }

/-- C8, witness: at concrete expiring-confirmation environments the
admin-update workflow and the order-placement script report the timeout
failure and neither reports success. -/
theorem c8_witness :
    (Eff.logErr (updateAdminCatchPrefix ++ "block height exceeded") ∈
       (updateAdminWorkflow ⟨1, 10, 12⟩ c8UpdateEnv).1 ∧
     Eff.logMsg "Transaction confirmed." ∉ (updateAdminWorkflow ⟨1, 10, 12⟩ c8UpdateEnv).1 ∧
     Eff.logMsg "Successfully updated admin" ∉ (updateAdminWorkflow ⟨1, 10, 12⟩ c8UpdateEnv).1) ∧
    (Eff.logErr ("Error placing order: " ++ "Transaction was not confirmed in 30 seconds") ∈
       (placeOrderRun 3 c8OrderEnv).1 ∧
     Eff.logMsg "Order placed!" ∉ (placeOrderRun 3 c8OrderEnv).1) :=
  ⟨c8_confirmation_timeout.1 ⟨1, 10, 12⟩ c8UpdateEnv 1 42 ⟨"block height exceeded", []⟩
     rfl rfl rfl rfl,
   c8_confirmation_timeout.2.2 3 c8OrderEnv [6] 44
     ⟨"Transaction was not confirmed in 30 seconds", []⟩ rfl rfl rfl rfl rfl rfl rfl⟩

/-! ## Claim C9 -/

/-- World exhibiting the C9 counterexample: the admin key path is set and
the key file exists but holds malformed JSON. -/
def c9World : NodeWorld :=
  { envVar := fun s => if s = "ADMIN_PRIVATE_KEY_PATH" then some "key.json" else none,
    fileContent := fun p => if p = "key.json" then some "oops" else none,
    jsonBytes := fun _ => none, secretKeyPub := fun _ => none,
    pubkeyOf := fun _ => none, homedir := "home" }

/-- C9, counterexample.  The claim says a malformed key file makes the
script fail before any network call with a descriptive message naming the
missing setting or file.  The admin-update script does fail before any
network call (its trace is empty), but the failure is `JSON.parse`'s
SyntaxError, whose message mentions neither the key file's path nor the
setting name. -/
theorem c9_counterexample :
    updateAdminConfig c9World =
      Except.error ⟨"Unexpected token in JSON at position 0", []⟩ ∧
    mentionsStr "Unexpected token in JSON at position 0" "key.json" = false ∧
    mentionsStr "Unexpected token in JSON at position 0" "ADMIN_PRIVATE_KEY_PATH" = false ∧
    ∀ env, (updateAdminRun c9World env).1 = [] := by
  refine ⟨rfl, by decide, by decide, fun env => rfl⟩

/-- C9, amended.  Configuration failures always happen before any network
call: a run with a failing config phase performs no effects at all.  In
the admin-update script, an unset required setting fails with a message
naming that setting, and a missing key file fails with a message carrying
the file path; but a malformed key file fails with a JSON parse error that
names neither the file nor the setting.  In `initialize-program.ts`, which
reads settings through non-null assertions, an unset
ADMIN_PRIVATE_KEY_PATH fails before any network call with `path.join`'s
generic TypeError, which does not name the setting. -/
theorem c9_config_errors_amended :
    (∀ w env, w.envVar "ADMIN_PRIVATE_KEY_PATH" = none →
       updateAdminRun w env =
         ([], Outcome.rejected ⟨"ADMIN_PRIVATE_KEY_PATH environment variable not set. This must be the keypair of the CURRENT admin.", []⟩)) ∧
    (∀ w env p, w.envVar "ADMIN_PRIVATE_KEY_PATH" = some p → w.fileContent p = none →
       updateAdminRun w env =
         ([], Outcome.rejected ⟨"Keypair file not found at " ++ p, []⟩)) ∧
    (∀ w env p c, w.envVar "ADMIN_PRIVATE_KEY_PATH" = some p →
       w.fileContent p = some c → w.jsonBytes c = none →
       updateAdminRun w env =
         ([], Outcome.rejected ⟨"Unexpected token in JSON at position 0", []⟩)) ∧
    (∀ env, env.world.envVar "ADMIN_PRIVATE_KEY_PATH" = none →
       initializeProgramRun env =
         ([], Outcome.rejected
            ⟨"The path argument must be of type string. Received undefined", []⟩) ∧
       mentionsStr "The path argument must be of type string. Received undefined"
         "ADMIN_PRIVATE_KEY_PATH" = false) := by
  refine ⟨?_, ?_, ?_, ?_⟩
  · intro w env h
    unfold updateAdminRun updateAdminConfig
    simp [h]
  · intro w env p h1 h2
    unfold updateAdminRun updateAdminConfig loadKeypairFromFile
    simp [h1, h2, except_bind_error]
  · intro w env p c h1 h2 h3
    unfold updateAdminRun updateAdminConfig loadKeypairFromFile jsonParseSecret
    simp [h1, h2, h3, except_bind_error]
  · intro env h
    constructor
    · unfold initializeProgramRun initializeProgramConfig pathJoinHome
      simp [h, except_bind_error]
    · decide

/-- A Node world with no settings at all. -/
def c9EmptyWorld : NodeWorld :=
  { envVar := fun _ => none, fileContent := fun _ => none, jsonBytes := fun _ => none,
    secretKeyPub := fun _ => none, pubkeyOf := fun _ => none, homedir := "home" }

/-- Environment for `initialize-program.ts` over the empty world. -/
def c9InitEnv : InitProgramEnv :=
  { world := c9EmptyWorld, blockhash0 := 9, sendR := .ok 33, confirmR := .ok none }

/-- C9, witness for the amended theorem: in a world with no settings at
all, the admin-update run performs no effects and rejects with the message
naming ADMIN_PRIVATE_KEY_PATH, and `initialize-program.ts` rejects with
the TypeError that does not name it. -/
theorem c9_witness :
    updateAdminRun c9EmptyWorld c2UpdateEnv =
      ([], Outcome.rejected ⟨"ADMIN_PRIVATE_KEY_PATH environment variable not set. This must be the keypair of the CURRENT admin.", []⟩) ∧
    (initializeProgramRun c9InitEnv =
       ([], Outcome.rejected
          ⟨"The path argument must be of type string. Received undefined", []⟩) ∧
     mentionsStr "The path argument must be of type string. Received undefined"
       "ADMIN_PRIVATE_KEY_PATH" = false) :=
  ⟨c9_config_errors_amended.1 c9EmptyWorld c2UpdateEnv rfl,
   c9_config_errors_amended.2.2.2 c9InitEnv rfl⟩

/-! ## Claim C10 -/

/-- C10.  On every execution path of `check-state.ts`, no transaction is
ever built and none is ever submitted: every effect of every run is a
non-build, non-submission effect (subscribe/unsubscribe, account reads,
log lines), so running the script leaves on-chain state unchanged. -/
theorem c10_check_state_readonly :
    ∀ env : CheckStateEnv,
      ((checkStateRun env).1.all fun e => !isSubmission e && !isBuild e) = true := by
  intro env
  obtain ⟨sp, smp, sub, sta, a1, a2, sa⟩ := env
  rcases sub with e | u <;> rcases sta with e2 | u2 <;>
    rcases a1 with e3 | o3 <;> rcases a2 with e4 | o4 <;>
    (try rcases o4 with _ | v4) <;> rcases sa with e5 | o5 <;>
    rfl

/-- Concrete all-ok environment for `check-state.ts`. -/
def c10Env : CheckStateEnv :=
  { statePk := 5, spotMarketPk := 6, subscribeR := .ok (),
    stateAccountR := .ok (), accountInfo1R := .ok (some ()),
    accountInfo2R := .ok (some ()), spotAccountR := .ok (some ()) }

/-- C10, witness: a concrete all-ok run of `check-state.ts` contains no
build and no submission effect. -/
theorem c10_witness :
    ((checkStateRun c10Env).1.all fun e => !isSubmission e && !isBuild e) = true :=
  c10_check_state_readonly c10Env

end DriftScripts
